import Mathlib

/-!
Verification of the portfolio restructuring and net-holdings engine of the
crypto-dashboard repository (`src/pages/3_My_Portfolio.py`).

A pandas DataFrame of transactions is embedded as a `List Row`.  Cells that can
be null in the frame (`None` in Python) are `Option ℚ` / `Option String`; a
missing value is `none`.  Python's falsy-fallback expression `x or y` on a
numeric cell is `orQ`: it falls through on both `None` and `0`.
-/

namespace CryptoDashboard

/-- One transaction row of the portfolio DataFrame, with the columns read or
written by the restructuring engine (`3_My_Portfolio.py`). -/
structure Row where
  Symbol : String
  Coin_Name : String
  Coin_ID : String
  Transaction_Type : String
  Quantity : Option ℚ
  Purchase_Price : Option ℚ
  Original_Purchase_Price : Option ℚ
  Adjusted_Purchase_Price : Option ℚ
  Current_Price : Option ℚ
  Current_Value : ℚ
  Profit_Loss : ℚ
  Effective_Quantity : ℚ
  Include_In_Portfolio : Bool
  Restructure_Group : Option String
  Cost_Basis_Transferred : Option ℚ
  Purchase_Date : Option String
  Purchase_Time : Option String
deriving Repr, DecidableEq

/-- Python's `x or y` on a nullable numeric cell: `None` and `0` are falsy. -/
def orQ (x : Option ℚ) (y : ℚ) : ℚ :=
  match x with
  | none => y
  | some v => if v = 0 then y else v

/-- `Series.fillna(0)` on a nullable cell. -/
def fillna0 (x : Option ℚ) : ℚ := x.getD 0

/-- Zero out a leg excluded from a view: `Include_In_Portfolio = False`,
`Current_Value = 0`, `Profit_Loss = 0` (the three assignments done per mask in
`apply_restructuring_rules`). -/
def zeroOut (r : Row) : Row :=
  { r with Include_In_Portfolio := false, Current_Value := 0, Profit_Loss := 0 }

/-- The per-row effect of the mode-specific masks of
`PortfolioRestructuringManager.apply_restructuring_rules` (the masks are
row-local, so the DataFrame update is a map of this function). -/
def restructuring_mask_row (calculation_type : String) (r : Row) : Row :=
  if calculation_type = "totals" then
    if r.Transaction_Type = "RESTRUCTURE_OUT" ∨ r.Transaction_Type = "RESTRUCTURE_IN" then
      zeroOut r
    else r
  else if calculation_type = "original" then
    if r.Transaction_Type = "RESTRUCTURE_IN" then
      zeroOut r
    else if r.Transaction_Type = "RESTRUCTURE_OUT" ∧ 0 < fillna0 r.Quantity then
      { r with Include_In_Portfolio := true,
               Effective_Quantity := |fillna0 r.Quantity| }
    else if r.Transaction_Type = "RESTRUCTURE_OUT" then
      zeroOut r
    else r
  else if calculation_type = "holdings" then
    if r.Transaction_Type = "RESTRUCTURE_OUT" then
      zeroOut r
    else if r.Transaction_Type = "RESTRUCTURE_IN" then
      { r with Include_In_Portfolio := true }
    else r
  else r

/-- OUT legs of one restructure group: `group_transactions[Transaction_Type == RESTRUCTURE_OUT]`. -/
def group_out_rows (df : List Row) (g : String) : List Row :=
  df.filter (fun x => x.Restructure_Group = some g ∧ x.Transaction_Type = "RESTRUCTURE_OUT")

/-- IN legs of one restructure group. -/
def group_in_rows (df : List Row) (g : String) : List Row :=
  df.filter (fun x => x.Restructure_Group = some g ∧ x.Transaction_Type = "RESTRUCTURE_IN")

/-- `total_cost_basis = (out.Quantity.abs() * out.Purchase_Price.fillna(0)).sum()`
(a null quantity contributes nothing, as `Series.sum` skips NaN). -/
def group_total_cost_basis (df : List Row) (g : String) : ℚ :=
  ((group_out_rows df g).map (fun x => |fillna0 x.Quantity| * fillna0 x.Purchase_Price)).sum

/-- `total_in_value = (ins.Quantity * ins.Purchase_Price.fillna(0)).sum()`. -/
def group_total_in_value (df : List Row) (g : String) : ℚ :=
  ((group_in_rows df g).map (fun x => fillna0 x.Quantity * fillna0 x.Purchase_Price)).sum

/-- Per-row effect of `PortfolioRestructuringManager._apply_cost_basis_transfers`:
the Python loop walks the distinct groups and updates only the IN legs of each
group, computing the group aggregates from columns it never writes, so it is a
map of this function over the frame. -/
def cost_basis_transfer_row (df : List Row) (r : Row) : Row :=
  match r.Restructure_Group with
  | none => r
  | some g =>
    if r.Transaction_Type = "RESTRUCTURE_IN" ∧ (group_in_rows df g) ≠ [] ∧
        0 < group_total_cost_basis df g then
      let quantity := orQ r.Quantity 0
      let purchase_price := orQ r.Purchase_Price 0
      let transaction_value := quantity * purchase_price
      let total_in_value := group_total_in_value df g
      let proportion := if 0 < total_in_value then transaction_value / total_in_value else 0
      let adjusted_cost_basis := group_total_cost_basis df g * proportion
      let adjusted_purchase_price := if 0 < quantity then adjusted_cost_basis / quantity else 0
      { r with Adjusted_Purchase_Price := some adjusted_purchase_price,
               Original_Purchase_Price := some purchase_price,
               Cost_Basis_Transferred := some adjusted_cost_basis }
    else r

/-- `PortfolioRestructuringManager._apply_cost_basis_transfers`. -/
def apply_cost_basis_transfers (df : List Row) : List Row :=
  df.map (cost_basis_transfer_row df)

/-- `PortfolioRestructuringManager.apply_restructuring_rules`: mode-specific
masks followed by the cost-basis transfer pass (`use_cost_basis_transfer` is
always `True`). -/
def apply_restructuring_rules (df : List Row) (calculation_type : String) : List Row :=
  apply_cost_basis_transfers (df.map (restructuring_mask_row calculation_type))

/-! ### The net-holdings replay (`calculate_net_holdings`) -/

/-- One entry of `transactions_list`: signed quantity, unit price, and the
normalised type tag (`BUY` or `SELL`). -/
structure Leg where
  qty : ℚ
  price : ℚ
  isBuy : Bool
deriving Repr, DecidableEq

/-- The price a replay leg is carried at:
`row.get('Purchase_Price', 0) or row.get('Original_Purchase_Price', 0) or 0`
— `Purchase_Price` first, falling through to `Original_Purchase_Price` when it
is null or zero; `Adjusted_Purchase_Price` is never consulted. -/
def leg_price (r : Row) : ℚ :=
  orQ r.Purchase_Price (orQ r.Original_Purchase_Price 0)

/-- First pass of `calculate_net_holdings`: BUY/RESTRUCTURE_IN rows become
positive legs, SELL/RESTRUCTURE_OUT rows negative legs; every other
transaction type (TRANSFER, EXCLUDE, ...) produces no leg at all. -/
def mk_leg (r : Row) : Option Leg :=
  let quantity := fillna0 r.Quantity
  let price := leg_price r
  if r.Transaction_Type = "BUY" ∨ r.Transaction_Type = "RESTRUCTURE_IN" then
    some { qty := |quantity|, price := price, isBuy := true }
  else if r.Transaction_Type = "SELL" ∨ r.Transaction_Type = "RESTRUCTURE_OUT" then
    some { qty := -|quantity|, price := price, isBuy := false }
  else
    none

/-- Second pass of `calculate_net_holdings`: one step of the running
(net_quantity, total_cost_basis) update. -/
def replay_step (s : ℚ × ℚ) (tx : Leg) : ℚ × ℚ :=
  let net_quantity := s.1
  let total_cost_basis := s.2
  if tx.isBuy then
    (net_quantity + tx.qty,
     if 0 < tx.price then total_cost_basis + tx.qty * tx.price else total_cost_basis)
  else if 0 < net_quantity then
    let sell_qty := min |tx.qty| net_quantity
    let avg_cost_before_sale := total_cost_basis / net_quantity
    (net_quantity - sell_qty,
     max 0 (total_cost_basis - sell_qty * avg_cost_before_sale))
  else s

/-- Lexicographic comparison of two character lists (the order pandas uses on
string sort columns). -/
def char_list_lt : List Char → List Char → Bool
  | [], [] => false
  | [], _ :: _ => true
  | _ :: _, [] => false
  | a :: as, b :: bs =>
    if a.val.toNat < b.val.toNat then true
    else if b.val.toNat < a.val.toNat then false
    else char_list_lt as bs

/-- Lexicographic order on strings. -/
def str_lt (a b : String) : Bool := char_list_lt a.data b.data

/-- `na_position='first'` comparison on one nullable sort column. -/
def opt_str_lt (a b : Option String) : Bool :=
  match a, b with
  | none, none => false
  | none, some _ => true
  | some _, none => false
  | some x, some y => str_lt x y

/-- Strict lexicographic order on the sort key
`['Purchase_Date', 'Purchase_Time']` of `sort_values`. -/
def row_key_lt (a b : Row) : Bool :=
  opt_str_lt a.Purchase_Date b.Purchase_Date ||
    (a.Purchase_Date == b.Purchase_Date && opt_str_lt a.Purchase_Time b.Purchase_Time)

/-- Insert a row after every earlier row whose key is not strictly greater
(keeps the arrival order of equal keys). -/
def insert_by_key (x : Row) : List Row → List Row
  | [] => [x]
  | y :: ys => if row_key_lt x y then x :: y :: ys else y :: insert_by_key x ys

/-- The date/time sort of the per-symbol frame
(`sort_values(['Purchase_Date', 'Purchase_Time'], na_position='first')`). -/
def sort_rows (xs : List Row) : List Row :=
  xs.foldl (fun acc x => insert_by_key x acc) []

/-- `df['Symbol'].unique()`: symbols in order of first appearance. -/
def unique_symbols (df : List Row) : List String :=
  df.foldl (fun acc r => if acc.contains r.Symbol then acc else acc ++ [r.Symbol]) []

/-- The replay legs of one symbol's frame: sort by date/time, then keep the
BUY/SELL-shaped legs. -/
def replay_legs (symbol_df : List Row) : List Leg :=
  (sort_rows symbol_df).filterMap mk_leg

/-- `symbol_df['Current_Price'].iloc[0]` guarded against an empty frame and
NaN. -/
def frame_current_price (xs : List Row) : ℚ :=
  match xs with
  | [] => 0
  | r :: _ => fillna0 r.Current_Price

/-- The NET_HOLDING row emitted for one symbol by `calculate_net_holdings`. -/
structure Position where
  Symbol : String
  Coin_Name : String
  Coin_ID : String
  Effective_Quantity : ℚ
  Quantity : ℚ
  Purchase_Price : ℚ
  Adjusted_Purchase_Price : ℚ
  Current_Price : ℚ
  Current_Value : ℚ
  Profit_Loss : ℚ
  Percentage_Change : ℚ
  Transaction_Type : String
  Include_In_Portfolio : Bool
deriving Repr, DecidableEq

/-- The per-symbol slice `symbol_df = df[df['Symbol'] == symbol]`. -/
def symbol_frame (df : List Row) (sym : String) : List Row :=
  df.filter (fun r => r.Symbol = sym)

/-- The final `(net_quantity, total_cost_basis)` of one symbol's replay. -/
def symbol_replay_state (df : List Row) (sym : String) : ℚ × ℚ :=
  (replay_legs (symbol_frame df sym)).foldl replay_step (0, 0)

/-- The body of the per-symbol loop of `calculate_net_holdings`: replay the
symbol's legs and emit a NET_HOLDING row when the net quantity is positive. -/
def net_holding_for_symbol (df : List Row) (sym : String) : Option Position :=
  if 0 < (symbol_replay_state df sym).1 then
    some { Symbol := sym,
           Coin_Name := ((symbol_frame df sym).head?.map (fun r => r.Coin_Name)).getD sym,
           Coin_ID := ((symbol_frame df sym).head?.map (fun r => r.Coin_ID)).getD sym,
           Effective_Quantity := (symbol_replay_state df sym).1,
           Quantity := (symbol_replay_state df sym).1,
           Purchase_Price := (symbol_replay_state df sym).2 / (symbol_replay_state df sym).1,
           Adjusted_Purchase_Price :=
             (symbol_replay_state df sym).2 / (symbol_replay_state df sym).1,
           Current_Price := frame_current_price (symbol_frame df sym),
           Current_Value :=
             (symbol_replay_state df sym).1 * frame_current_price (symbol_frame df sym),
           Profit_Loss :=
             (symbol_replay_state df sym).1 * frame_current_price (symbol_frame df sym) -
               (symbol_replay_state df sym).2,
           Percentage_Change :=
             if 0 < (symbol_replay_state df sym).2 then
               ((symbol_replay_state df sym).1 * frame_current_price (symbol_frame df sym) -
                   (symbol_replay_state df sym).2) / (symbol_replay_state df sym).2 * 100
             else 0,
           Transaction_Type := "NET_HOLDING",
           Include_In_Portfolio := true }
  else none

/-- `calculate_net_holdings`. -/
def calculate_net_holdings (df : List Row) : List Position :=
  (unique_symbols df).filterMap (net_holding_for_symbol df)

/-- The tuple of columns `calculate_net_holdings` reads from a row.  Note that
`Adjusted_Purchase_Price`, `Include_In_Portfolio`, `Current_Value` and
`Profit_Loss` are absent: the replay never consults them. -/
def replay_view (r : Row) :
    String × String × String × String × Option ℚ × Option ℚ × Option ℚ × Option ℚ ×
      Option String × Option String :=
  (r.Symbol, r.Coin_Name, r.Coin_ID, r.Transaction_Type, r.Quantity, r.Purchase_Price,
   r.Original_Purchase_Price, r.Current_Price, r.Purchase_Date, r.Purchase_Time)

/-- Clear a row's inclusion flag (used to say two frames agree on every other
column). -/
def erase_include (r : Row) : Row := { r with Include_In_Portfolio := false }

/-! ### The portfolio summary (`get_portfolio_summary_with_restructuring`) -/

/-- The TOTALS-view rows that pass the `Include_In_Portfolio == True` filter. -/
def included_totals (df : List Row) : List Row :=
  (apply_restructuring_rules df "totals").filter (fun r => r.Include_In_Portfolio)

/-- The HOLDINGS-view rows that pass the `Include_In_Portfolio == True` filter. -/
def included_holdings (df : List Row) : List Row :=
  (apply_restructuring_rules df "holdings").filter (fun r => r.Include_In_Portfolio)

/-- One row's contribution to the totals cost basis:
`abs(quantity) * (Adjusted_Purchase_Price or Purchase_Price or 0)`. -/
def totals_cost_basis_row (r : Row) : ℚ :=
  |orQ r.Quantity 0| * orQ r.Adjusted_Purchase_Price (orQ r.Purchase_Price 0)

/-- The summary dict returned by `get_portfolio_summary_with_restructuring`. -/
structure Summary where
  total_cost_basis : ℚ
  total_current_value : ℚ
  total_pnl : ℚ
  total_return_pct : ℚ
  holdings_current_value : ℚ
  excluded_transactions : ℕ
  cost_basis_transferred : ℚ
  included_transactions_totals : ℕ
  included_transactions_holdings : ℕ
  total_transactions : ℕ
deriving Repr, DecidableEq

/-- `PortfolioRestructuringManager.get_portfolio_summary_with_restructuring`
(`none` stands for the empty dict returned for an empty frame). -/
def get_portfolio_summary_with_restructuring (df : List Row) : Option Summary :=
  if df = [] then none
  else
    let included_totals_df := included_totals df
    let included_holdings_df := included_holdings df
    let total_current_value := (included_totals_df.map (fun r => r.Current_Value)).sum
    let total_cost_basis := (included_totals_df.map totals_cost_basis_row).sum
    let total_pnl := total_current_value - total_cost_basis
    let total_return_pct :=
      if 0 < total_cost_basis then total_pnl / total_cost_basis * 100 else 0
    some { total_cost_basis := total_cost_basis,
           total_current_value := total_current_value,
           total_pnl := total_pnl,
           total_return_pct := total_return_pct,
           holdings_current_value := (included_holdings_df.map (fun r => r.Current_Value)).sum,
           excluded_transactions := (df.filter (fun r => r.Include_In_Portfolio = false)).length,
           cost_basis_transferred := (df.map (fun r => fillna0 r.Cost_Basis_Transferred)).sum,
           included_transactions_totals := included_totals_df.length,
           included_transactions_holdings := included_holdings_df.length,
           total_transactions := df.length }

/-! ### The column backfill of `calculate_portfolio_metrics` -/

/-- A stored record whose restructuring columns are absent (a legacy record as
it leaves the loader's rename step). -/
structure LegacyRow where
  Symbol : String
  Coin_Name : String
  Coin_ID : String
  Quantity : Option ℚ
  Purchase_Price : Option ℚ
  Current_Price : Option ℚ
  Purchase_Date : Option String
  Purchase_Time : Option String
deriving Repr, DecidableEq

/-- The column backfill of `calculate_portfolio_metrics` on a frame missing
every restructuring column: `Transaction_Type` from the sign of `Quantity`
(`'SELL' if x < 0 else 'BUY'`), `Include_In_Portfolio = True`,
`Adjusted_Purchase_Price = Original_Purchase_Price = Purchase_Price`,
`Cost_Basis_Transferred = 0`, `Restructure_Group = None`. -/
def backfill_restructuring_columns (r : LegacyRow) : Row :=
  { Symbol := r.Symbol,
    Coin_Name := r.Coin_Name,
    Coin_ID := r.Coin_ID,
    Transaction_Type :=
      match r.Quantity with
      | some q => if q < 0 then "SELL" else "BUY"
      | none => "BUY",
    Quantity := r.Quantity,
    Purchase_Price := r.Purchase_Price,
    Original_Purchase_Price := r.Purchase_Price,
    Adjusted_Purchase_Price := r.Purchase_Price,
    Current_Price := r.Current_Price,
    Current_Value := 0,
    Profit_Loss := 0,
    Effective_Quantity := fillna0 r.Quantity,
    Include_In_Portfolio := true,
    Restructure_Group := none,
    Cost_Basis_Transferred := some 0,
    Purchase_Date := r.Purchase_Date,
    Purchase_Time := r.Purchase_Time }

/-! ### Sample ledgers used by witnesses and counterexamples -/

/-- A plain BUY row with every cell populated; the other sample rows override
selected cells. -/
def baseRow : Row :=
  { Symbol := "BTC", Coin_Name := "Bitcoin", Coin_ID := "bitcoin",
    Transaction_Type := "BUY", Quantity := some 1, Purchase_Price := some 1,
    Original_Purchase_Price := some 1, Adjusted_Purchase_Price := some 1,
    Current_Price := some 1, Current_Value := 0, Profit_Loss := 0,
    Effective_Quantity := 1, Include_In_Portfolio := true,
    Restructure_Group := none, Cost_Basis_Transferred := none,
    Purchase_Date := some "2024-01-01", Purchase_Time := some "10:00" }

/-- BUY 10 BTC at unit price 100 (current price 150). -/
def buyRow : Row :=
  { baseRow with Quantity := some 10, Purchase_Price := some 100,
                 Original_Purchase_Price := some 100, Adjusted_Purchase_Price := some 100,
                 Current_Price := some 150, Purchase_Date := some "2024-01-01" }

/-- SELL 4 BTC at unit price 120 (current price 150), dated after `buyRow`. -/
def sellRow : Row :=
  { baseRow with Transaction_Type := "SELL", Quantity := some 4,
                 Purchase_Price := some 120, Original_Purchase_Price := some 120,
                 Adjusted_Purchase_Price := some 120, Current_Price := some 150,
                 Purchase_Date := some "2024-01-02" }

/-- RESTRUCTURE_OUT 5 ETH at unit price 200, group G. -/
def outRow : Row :=
  { baseRow with Symbol := "ETH", Transaction_Type := "RESTRUCTURE_OUT",
                 Quantity := some 5, Purchase_Price := some 200,
                 Restructure_Group := some "G" }

/-- RESTRUCTURE_IN 1000 SOL at unit price 1, group G. -/
def inRow : Row :=
  { baseRow with Symbol := "SOL", Transaction_Type := "RESTRUCTURE_IN",
                 Quantity := some 1000, Purchase_Price := some 1,
                 Restructure_Group := some "G" }

/-- An EXCLUDE-kind row whose inclusion flag is still `true`. -/
def exRow : Row :=
  { baseRow with Transaction_Type := "EXCLUDE", Include_In_Portfolio := true }

/-- An EXCLUDE-kind row whose inclusion flag is `false`, as `add_transaction`
creates them. -/
def exRowOff : Row :=
  { baseRow with Transaction_Type := "EXCLUDE", Include_In_Portfolio := false }

/-- A TRANSFER row carrying 5 units priced at 100. -/
def transferRow : Row :=
  { baseRow with Transaction_Type := "TRANSFER", Quantity := some 5,
                 Purchase_Price := some 100, Current_Price := some 150 }

/-- A RESTRUCTURE_IN leg whose adjusted unit price (5) differs from its
original purchase price (1). -/
def adjustedInRow : Row :=
  { baseRow with Symbol := "SOL", Transaction_Type := "RESTRUCTURE_IN",
                 Quantity := some 1000, Purchase_Price := some 1,
                 Original_Purchase_Price := some 1, Adjusted_Purchase_Price := some 5,
                 Current_Price := some 2 }

/-- A legacy stored record with a negative quantity. -/
def legacySellRecord : LegacyRow :=
  { Symbol := "BTC", Coin_Name := "Bitcoin", Coin_ID := "bitcoin",
    Quantity := some (-3), Purchase_Price := some 50, Current_Price := some 60,
    Purchase_Date := some "2024-01-01", Purchase_Time := some "10:00" }

/-- A legacy stored record with a positive quantity. -/
def legacyBuyRecord : LegacyRow :=
  { Symbol := "BTC", Coin_Name := "Bitcoin", Coin_ID := "bitcoin",
    Quantity := some 2, Purchase_Price := some 50, Current_Price := some 60,
    Purchase_Date := some "2024-01-01", Purchase_Time := some "10:00" }

/-- The summary of the ledger `[buyRow, sellRow]` (its `Current_Value` cells
are still zero, so the current value totals are zero). -/
def sampleSummary : Summary :=
  { total_cost_basis := 1480, total_current_value := 0, total_pnl := -1480,
    total_return_pct := -100, holdings_current_value := 0,
    excluded_transactions := 0, cost_basis_transferred := 0,
    included_transactions_totals := 2, included_transactions_holdings := 2,
    total_transactions := 2 }

end CryptoDashboard

attribute [local semireducible] Rat.inv Rat.mul Rat.add Rat.sub

namespace CryptoDashboard

/-! ### Helper lemmas -/

theorem orQ_zero (x : Option ℚ) : orQ x 0 = fillna0 x := by
  cases x with
  | none => rfl
  | some v =>
    by_cases h : v = 0 <;> simp [orQ, fillna0, h]

/-- The cost-basis transfer pass only rewrites the three transferred-cost
cells; every other column of a row survives it. -/
theorem cost_basis_transfer_row_preserves (df : List Row) (r : Row) :
    (cost_basis_transfer_row df r).Symbol = r.Symbol ∧
    (cost_basis_transfer_row df r).Transaction_Type = r.Transaction_Type ∧
    (cost_basis_transfer_row df r).Include_In_Portfolio = r.Include_In_Portfolio ∧
    (cost_basis_transfer_row df r).Current_Value = r.Current_Value ∧
    (cost_basis_transfer_row df r).Profit_Loss = r.Profit_Loss ∧
    (cost_basis_transfer_row df r).Quantity = r.Quantity ∧
    (cost_basis_transfer_row df r).Restructure_Group = r.Restructure_Group := by
  unfold cost_basis_transfer_row
  cases hg : r.Restructure_Group with
  | none => simp [hg]
  | some g =>
    by_cases hc : r.Transaction_Type = "RESTRUCTURE_IN" ∧ group_in_rows df g ≠ [] ∧
        0 < group_total_cost_basis df g
    · simp [hc, hg]
    · simp [hc, hg]

/-- The mode masks never change a row's transaction type. -/
theorem restructuring_mask_row_type (mode : String) (r : Row) :
    (restructuring_mask_row mode r).Transaction_Type = r.Transaction_Type := by
  unfold restructuring_mask_row zeroOut
  split_ifs <;> rfl

/-- A row that is not a restructuring leg passes through the mode masks
unchanged, whatever the mode string is. -/
theorem restructuring_mask_row_fixes_other (mode : String) (r : Row)
    (hOut : r.Transaction_Type ≠ "RESTRUCTURE_OUT")
    (hIn : r.Transaction_Type ≠ "RESTRUCTURE_IN") :
    restructuring_mask_row mode r = r := by
  unfold restructuring_mask_row
  split_ifs <;> first | rfl | tauto

/-- The cost-basis transfer pass fixes every row that is not a
RESTRUCTURE_IN leg. -/
theorem cost_basis_transfer_row_fixes_other (df : List Row) (r : Row)
    (hIn : r.Transaction_Type ≠ "RESTRUCTURE_IN") :
    cost_basis_transfer_row df r = r := by
  unfold cost_basis_transfer_row
  cases hg : r.Restructure_Group with
  | none => rfl
  | some g =>
    have hc : ¬(r.Transaction_Type = "RESTRUCTURE_IN" ∧ group_in_rows df g ≠ [] ∧
        0 < group_total_cost_basis df g) := fun h => hIn h.1
    simp [hc]

/-- The transferred cost recorded on an IN leg of a live group. -/
theorem cost_basis_transfer_row_cbt (df : List Row) (r : Row) (g : String)
    (hg : r.Restructure_Group = some g)
    (ht : r.Transaction_Type = "RESTRUCTURE_IN")
    (hne : group_in_rows df g ≠ [])
    (hB : 0 < group_total_cost_basis df g)
    (hT : 0 < group_total_in_value df g) :
    (cost_basis_transfer_row df r).Cost_Basis_Transferred =
      some (group_total_cost_basis df g *
        (fillna0 r.Quantity * fillna0 r.Purchase_Price / group_total_in_value df g)) := by
  unfold cost_basis_transfer_row
  rw [hg]
  have hcond : r.Transaction_Type = "RESTRUCTURE_IN" ∧ group_in_rows df g ≠ [] ∧
      0 < group_total_cost_basis df g := ⟨ht, hne, hB⟩
  simp [hcond, hT, orQ_zero]

/-- The group's IN legs after the transfer pass are the transferred images of
the original IN legs. -/
theorem group_in_rows_transfer (df : List Row) (g : String) :
    group_in_rows (apply_cost_basis_transfers df) g =
      (group_in_rows df g).map (cost_basis_transfer_row df) := by
  unfold group_in_rows apply_cost_basis_transfers
  rw [List.filter_map]
  congr 1
  apply List.filter_congr
  intro x hx
  have h := cost_basis_transfer_row_preserves df x
  simp only [Function.comp_apply, h.2.1, h.2.2.2.2.2.2]

/-- Every row of the restructured frame is the transfer image of the mask
image of an input row. -/
theorem mem_apply_restructuring_rules (df : List Row) (mode : String) (r : Row)
    (h : r ∈ apply_restructuring_rules df mode) :
    ∃ b ∈ df, r = cost_basis_transfer_row (df.map (restructuring_mask_row mode))
        (restructuring_mask_row mode b) := by
  unfold apply_restructuring_rules apply_cost_basis_transfers at h
  rw [List.map_map] at h
  obtain ⟨b, hb, hfb⟩ := List.mem_map.mp h
  exact ⟨b, hb, hfb.symm⟩

/-- In HOLDINGS mode the mask zeroes a RESTRUCTURE_OUT row. -/
theorem mask_holdings_out (r : Row) (h : r.Transaction_Type = "RESTRUCTURE_OUT") :
    restructuring_mask_row "holdings" r = zeroOut r := by
  unfold restructuring_mask_row
  simp [h]

/-- In HOLDINGS mode the mask forces a RESTRUCTURE_IN row's inclusion flag on. -/
theorem mask_holdings_in (r : Row) (h : r.Transaction_Type = "RESTRUCTURE_IN") :
    restructuring_mask_row "holdings" r = { r with Include_In_Portfolio := true } := by
  unfold restructuring_mask_row
  simp [h]

/-- In TOTALS mode the mask zeroes both kinds of restructuring row. -/
theorem mask_totals_restructure (r : Row)
    (h : r.Transaction_Type = "RESTRUCTURE_OUT" ∨ r.Transaction_Type = "RESTRUCTURE_IN") :
    restructuring_mask_row "totals" r = zeroOut r := by
  unfold restructuring_mask_row
  simp [h]

/-- Rows whose type is neither restructuring kind pass through
`apply_restructuring_rules` untouched, in every mode. -/
theorem filter_type_passthrough (df : List Row) (mode t : String)
    (hOut : t ≠ "RESTRUCTURE_OUT") (hIn : t ≠ "RESTRUCTURE_IN") :
    (apply_restructuring_rules df mode).filter (fun x => x.Transaction_Type = t) =
      df.filter (fun x => x.Transaction_Type = t) := by
  unfold apply_restructuring_rules apply_cost_basis_transfers
  rw [List.map_map, List.filter_map]
  have e1 : df.filter ((fun x => decide (x.Transaction_Type = t)) ∘
      (cost_basis_transfer_row (df.map (restructuring_mask_row mode)) ∘
        restructuring_mask_row mode)) =
      df.filter (fun x => decide (x.Transaction_Type = t)) := by
    apply List.filter_congr
    intro x _
    simp only [Function.comp_apply]
    have hTT : (cost_basis_transfer_row (df.map (restructuring_mask_row mode))
        (restructuring_mask_row mode x)).Transaction_Type = x.Transaction_Type := by
      rw [(cost_basis_transfer_row_preserves _ _).2.1, restructuring_mask_row_type]
    simp only [hTT]
  rw [e1]
  have e2 : (df.filter (fun x => decide (x.Transaction_Type = t))).map
      (cost_basis_transfer_row (df.map (restructuring_mask_row mode)) ∘
        restructuring_mask_row mode) =
      (df.filter (fun x => decide (x.Transaction_Type = t))).map id := by
    apply List.map_congr_left
    intro x hx
    rw [List.mem_filter] at hx
    have hxt : x.Transaction_Type = t := by simpa using hx.2
    simp only [Function.comp_apply, id]
    rw [restructuring_mask_row_fixes_other mode x (by rw [hxt]; exact hOut)
        (by rw [hxt]; exact hIn),
      cost_basis_transfer_row_fixes_other _ x (by rw [hxt]; exact hIn)]
  rw [e2, List.map_id]

/-- Membership in `insert_by_key` is membership in the inserted element or
the list. -/
theorem mem_insert_by_key (x y : Row) (l : List Row) :
    y ∈ insert_by_key x l ↔ y = x ∨ y ∈ l := by
  induction l with
  | nil => simp [insert_by_key]
  | cons a as ih =>
    unfold insert_by_key
    by_cases h : row_key_lt x a
    · simp [h]
    · simp [h, ih]
      tauto

/-- The date/time sort keeps exactly the rows of its input. -/
theorem mem_sort_rows (y : Row) (l : List Row) : y ∈ sort_rows l ↔ y ∈ l := by
  unfold sort_rows
  suffices h : ∀ acc, (y ∈ l.foldl (fun acc x => insert_by_key x acc) acc ↔
      y ∈ acc ∨ y ∈ l) by
    simpa using h []
  induction l with
  | nil => intro acc; simp
  | cons a as ih =>
    intro acc
    rw [List.foldl_cons, ih, mem_insert_by_key]
    simp only [List.mem_cons]
    tauto

/-- A frame made only of TRANSFER rows yields no position for any symbol. -/
theorem net_holding_none_of_all_transfer (df : List Row)
    (h : ∀ x ∈ df, x.Transaction_Type = "TRANSFER") (sym : String) :
    net_holding_for_symbol df sym = none := by
  unfold net_holding_for_symbol
  have hlegs : replay_legs (symbol_frame df sym) = [] := by
    unfold replay_legs symbol_frame
    rw [List.filterMap_eq_nil_iff]
    intro a ha
    rw [mem_sort_rows] at ha
    have hT := h a (List.mem_of_mem_filter ha)
    unfold mk_leg
    simp [hT]
  unfold symbol_replay_state
  simp only [hlegs, List.foldl_nil]
  norm_num

/-- Appending a row that is no restructuring leg changes no group's OUT or IN
slice. -/
theorem group_rows_append_other (ctx : List Row) (s : Row)
    (hOut : s.Transaction_Type ≠ "RESTRUCTURE_OUT")
    (hIn : s.Transaction_Type ≠ "RESTRUCTURE_IN") (g : String) :
    group_in_rows (ctx ++ [s]) g = group_in_rows ctx g ∧
    group_out_rows (ctx ++ [s]) g = group_out_rows ctx g := by
  constructor
  · unfold group_in_rows
    rw [List.filter_append]
    simp [hIn]
  · unfold group_out_rows
    rw [List.filter_append]
    simp [hOut]

/-- The transfer pass computes the same row when its context frame gains a
non-restructuring row: every aggregate it reads ignores that row. -/
theorem cost_basis_transfer_row_ctx_append (ctx : List Row) (s x : Row)
    (hOut : s.Transaction_Type ≠ "RESTRUCTURE_OUT")
    (hIn : s.Transaction_Type ≠ "RESTRUCTURE_IN") :
    cost_basis_transfer_row (ctx ++ [s]) x = cost_basis_transfer_row ctx x := by
  unfold cost_basis_transfer_row
  cases hg : x.Restructure_Group with
  | none => rfl
  | some g =>
    have h1 := (group_rows_append_other ctx s hOut hIn g).1
    have h2 := (group_rows_append_other ctx s hOut hIn g).2
    have h3 : group_total_cost_basis (ctx ++ [s]) g = group_total_cost_basis ctx g := by
      unfold group_total_cost_basis
      rw [h2]
    have h4 : group_total_in_value (ctx ++ [s]) g = group_total_in_value ctx g := by
      unfold group_total_in_value
      rw [h1]
    simp only [h1, h3, h4]

/-- `apply_restructuring_rules` passes an appended non-restructuring row
through unchanged and treats the remaining rows exactly as before, in every
mode. -/
theorem apply_rules_append_other (df : List Row) (t : Row) (mode : String)
    (hOut : t.Transaction_Type ≠ "RESTRUCTURE_OUT")
    (hIn : t.Transaction_Type ≠ "RESTRUCTURE_IN") :
    apply_restructuring_rules (df ++ [t]) mode = apply_restructuring_rules df mode ++ [t] := by
  unfold apply_restructuring_rules apply_cost_basis_transfers
  have hmaskt : restructuring_mask_row mode t = t :=
    restructuring_mask_row_fixes_other mode t hOut hIn
  rw [List.map_append, List.map_append]
  simp only [List.map_cons, List.map_nil, hmaskt]
  congr 1
  · apply List.map_congr_left
    intro x _
    exact cost_basis_transfer_row_ctx_append (df.map (restructuring_mask_row mode)) t x hOut hIn
  · rw [cost_basis_transfer_row_ctx_append (df.map (restructuring_mask_row mode)) t t hOut hIn,
      cost_basis_transfer_row_fixes_other _ t hIn]

/-- Unpack a `replay_view` equality into the ten column equalities. -/
theorem replay_view_fields (m : Row → Row) (hm : ∀ r, replay_view (m r) = replay_view r)
    (r : Row) :
    (m r).Symbol = r.Symbol ∧ (m r).Coin_Name = r.Coin_Name ∧
    (m r).Coin_ID = r.Coin_ID ∧ (m r).Transaction_Type = r.Transaction_Type ∧
    (m r).Quantity = r.Quantity ∧ (m r).Purchase_Price = r.Purchase_Price ∧
    (m r).Original_Purchase_Price = r.Original_Purchase_Price ∧
    (m r).Current_Price = r.Current_Price ∧ (m r).Purchase_Date = r.Purchase_Date ∧
    (m r).Purchase_Time = r.Purchase_Time := by
  have h := hm r
  unfold replay_view at h
  simpa [Prod.ext_iff] using h

/-- `unique_symbols` only reads the Symbol column. -/
theorem unique_symbols_map (m : Row → Row) (hm : ∀ r, (m r).Symbol = r.Symbol)
    (df : List Row) : unique_symbols (df.map m) = unique_symbols df := by
  unfold unique_symbols
  suffices h : ∀ acc : List String,
      (df.map m).foldl (fun acc r => if acc.contains r.Symbol then acc else acc ++ [r.Symbol]) acc =
        df.foldl (fun acc r => if acc.contains r.Symbol then acc else acc ++ [r.Symbol]) acc by
    exact h []
  induction df with
  | nil => intro acc; rfl
  | cons a as ih =>
    intro acc
    simp only [List.map_cons, List.foldl_cons, hm a]
    exact ih _

/-- Inserting a mapped row into a mapped list commutes with the map when the
modification preserves the sort key. -/
theorem insert_by_key_map (m : Row → Row)
    (hk : ∀ a b, row_key_lt (m a) (m b) = row_key_lt a b)
    (x : Row) (l : List Row) :
    insert_by_key (m x) (l.map m) = (insert_by_key x l).map m := by
  induction l with
  | nil => rfl
  | cons a as ih =>
    simp only [List.map_cons]
    unfold insert_by_key
    rw [hk x a]
    by_cases h : row_key_lt x a
    · simp [h]
    · simp [h, ih]

/-- The date/time sort commutes with a key-preserving row modification. -/
theorem sort_rows_map (m : Row → Row)
    (hk : ∀ a b, row_key_lt (m a) (m b) = row_key_lt a b)
    (l : List Row) : sort_rows (l.map m) = (sort_rows l).map m := by
  unfold sort_rows
  suffices h : ∀ acc : List Row,
      (l.map m).foldl (fun acc x => insert_by_key x acc) (acc.map m) =
        (l.foldl (fun acc x => insert_by_key x acc) acc).map m by
    simpa using h []
  induction l with
  | nil => intro acc; rfl
  | cons a as ih =>
    intro acc
    simp only [List.map_cons, List.foldl_cons]
    rw [insert_by_key_map m hk a acc]
    exact ih _

/-- Pointwise-equal partial maps give equal `filterMap`s. -/
theorem filterMap_congr_mem {α β : Type} (f g : α → Option β) (l : List α)
    (h : ∀ a ∈ l, f a = g a) : l.filterMap f = l.filterMap g := by
  induction l with
  | nil => rfl
  | cons a as ih =>
    simp only [List.filterMap_cons, h a (by simp)]
    cases g a <;> simp [ih (fun x hx => h x (by simp [hx]))]

/-- A row modification that preserves every column the replay reads leaves the
whole of `calculate_net_holdings` unchanged. -/
theorem calculate_net_holdings_map (m : Row → Row)
    (hm : ∀ r, replay_view (m r) = replay_view r) (df : List Row) :
    calculate_net_holdings (df.map m) = calculate_net_holdings df := by
  have hf := replay_view_fields m hm
  have hkey : ∀ a b, row_key_lt (m a) (m b) = row_key_lt a b := by
    intro a b
    unfold row_key_lt
    rw [(hf a).2.2.2.2.2.2.2.2.1, (hf b).2.2.2.2.2.2.2.2.1,
      (hf a).2.2.2.2.2.2.2.2.2, (hf b).2.2.2.2.2.2.2.2.2]
  have hframe : ∀ sym, symbol_frame (df.map m) sym = (symbol_frame df sym).map m := by
    intro sym
    unfold symbol_frame
    rw [List.filter_map]
    congr 1
    apply List.filter_congr
    intro x _
    simp only [Function.comp_apply, (hf x).1]
  have hmk : ∀ r, mk_leg (m r) = mk_leg r := by
    intro r
    unfold mk_leg leg_price
    rw [(hf r).2.2.2.1, (hf r).2.2.2.2.1, (hf r).2.2.2.2.2.1, (hf r).2.2.2.2.2.2.1]
  have hstate : ∀ sym, symbol_replay_state (df.map m) sym = symbol_replay_state df sym := by
    intro sym
    unfold symbol_replay_state replay_legs
    rw [hframe sym, sort_rows_map m hkey, List.filterMap_map]
    exact congrArg (fun s => s.foldl replay_step (0, 0))
      (filterMap_congr_mem (mk_leg ∘ m) mk_leg _ (fun r _ => hmk r))
  have hcp : ∀ sym, frame_current_price (symbol_frame (df.map m) sym) =
      frame_current_price (symbol_frame df sym) := by
    intro sym
    rw [hframe sym]
    cases symbol_frame df sym with
    | nil => rfl
    | cons a l =>
      unfold frame_current_price
      simp [(hf a).2.2.2.2.2.2.2.1]
  have hname : ∀ sym, ((symbol_frame (df.map m) sym).head?.map (fun r => r.Coin_Name)) =
      ((symbol_frame df sym).head?.map (fun r => r.Coin_Name)) := by
    intro sym
    rw [hframe sym]
    cases symbol_frame df sym with
    | nil => rfl
    | cons a l => simp [(hf a).2.1]
  have hid : ∀ sym, ((symbol_frame (df.map m) sym).head?.map (fun r => r.Coin_ID)) =
      ((symbol_frame df sym).head?.map (fun r => r.Coin_ID)) := by
    intro sym
    rw [hframe sym]
    cases symbol_frame df sym with
    | nil => rfl
    | cons a l => simp [(hf a).2.2.1]
  unfold calculate_net_holdings
  rw [unique_symbols_map m (fun r => (hf r).1) df]
  apply filterMap_congr_mem
  intro sym _
  unfold net_holding_for_symbol
  rw [hstate sym, hcp sym, hname sym, hid sym]

/-- One replay step preserves non-negativity of the running state, provided a
buy leg carries a non-negative quantity (sell legs are clamped). -/
theorem replay_step_nonneg (s : ℚ × ℚ) (tx : Leg) (h1 : 0 ≤ s.1) (h2 : 0 ≤ s.2)
    (hq : tx.isBuy = true → 0 ≤ tx.qty) :
    0 ≤ (replay_step s tx).1 ∧ 0 ≤ (replay_step s tx).2 := by
  unfold replay_step
  by_cases hb : tx.isBuy
  · simp only [hb, if_true]
    refine ⟨add_nonneg h1 (hq hb), ?_⟩
    by_cases hp : 0 < tx.price
    · simp only [hp, if_true]
      exact add_nonneg h2 (mul_nonneg (hq hb) (le_of_lt hp))
    · simp only [hp, if_false]
      exact h2
  · simp only [hb, if_false, Bool.false_eq_true]
    by_cases hpos : 0 < s.1
    · simp only [hpos, if_true]
      constructor
      · have hmin : min |tx.qty| s.1 ≤ s.1 := min_le_right _ _
        linarith
      · exact le_max_left 0 _
    · simp only [hpos, if_false]
      exact ⟨h1, h2⟩

/-- Non-negativity of every intermediate replay state, by induction along the
leg list. -/
theorem replay_scanl_nonneg (legs : List Leg)
    (hlegs : ∀ l ∈ legs, l.isBuy = true → 0 ≤ l.qty) :
    ∀ init : ℚ × ℚ, 0 ≤ init.1 → 0 ≤ init.2 →
      ∀ s ∈ legs.scanl replay_step init, 0 ≤ s.1 ∧ 0 ≤ s.2 := by
  induction legs with
  | nil =>
    intro init h1 h2 s hs
    rw [List.scanl_nil, List.mem_singleton] at hs
    subst hs
    exact ⟨h1, h2⟩
  | cons a as ih =>
    intro init h1 h2 s hs
    rw [List.scanl_cons] at hs
    simp only [List.singleton_append, List.mem_cons] at hs
    rcases hs with rfl | hs
    · exact ⟨h1, h2⟩
    · have hstep := replay_step_nonneg init a h1 h2 (hlegs a (by simp))
      exact ih (fun l hl => hlegs l (by simp [hl])) _ hstep.1 hstep.2 s hs

/-! ### Claim theorems -/

/-- Claim C1: for every transaction DataFrame, the summary produced by
`get_portfolio_summary_with_restructuring` satisfies the TOTALS-view balance
identity: `total_pnl` equals `total_current_value` minus `total_cost_basis`,
so `total_current_value = total_cost_basis + total_pnl` holds exactly (hence
within any tolerance). -/
theorem C1_totals_balance_identity (df : List Row) (s : Summary)
    (h : get_portfolio_summary_with_restructuring df = some s) :
    s.total_current_value = s.total_cost_basis + s.total_pnl := by
  unfold get_portfolio_summary_with_restructuring at h
  split at h
  · simp at h
  · have h' := Option.some.inj h
    subst h'
    dsimp only
    ring

/-- Witness for C1 on the concrete two-row ledger `[buyRow, sellRow]`. -/
theorem C1_totals_balance_identity_witness :
    sampleSummary.total_current_value =
      sampleSummary.total_cost_basis + sampleSummary.total_pnl :=
  C1_totals_balance_identity [buyRow, sellRow] sampleSummary (by decide)

/-- Claim C2: for every restructure group whose OUT-leg proceeds
`P = Σ |quantity| * purchase price` are positive and whose IN-leg total value
is positive, the transferred cost bases recorded on the group's IN legs by
`_apply_cost_basis_transfers` sum to exactly `P`. -/
theorem C2_cost_transfer_conservation (df : List Row) (g : String)
    (hP : 0 < group_total_cost_basis df g)
    (hT : 0 < group_total_in_value df g) :
    ((group_in_rows (apply_cost_basis_transfers df) g).map
        (fun r => fillna0 r.Cost_Basis_Transferred)).sum =
      group_total_cost_basis df g := by
  rw [group_in_rows_transfer, List.map_map]
  have key : ∀ r ∈ group_in_rows df g,
      ((fun r => fillna0 r.Cost_Basis_Transferred) ∘ cost_basis_transfer_row df) r =
        group_total_cost_basis df g / group_total_in_value df g *
          (fillna0 r.Quantity * fillna0 r.Purchase_Price) := by
    intro r hr
    have hmem := hr
    unfold group_in_rows at hr
    rw [List.mem_filter] at hr
    have hg : r.Restructure_Group = some g := by
      have := hr.2
      simp at this
      exact this.1
    have ht : r.Transaction_Type = "RESTRUCTURE_IN" := by
      have := hr.2
      simp at this
      exact this.2
    have hne : group_in_rows df g ≠ [] := List.ne_nil_of_mem hmem
    simp only [Function.comp_apply,
      cost_basis_transfer_row_cbt df r g hg ht hne hP hT, fillna0, Option.getD_some]
    field_simp
  rw [List.map_congr_left key, List.sum_map_mul_left]
  rw [show ((group_in_rows df g).map fun r =>
      fillna0 r.Quantity * fillna0 r.Purchase_Price).sum = group_total_in_value df g from rfl]
  exact div_mul_cancel₀ _ (ne_of_gt hT)

/-- Witness for C2 on the spec's scenario-C group
`[RESTRUCTURE_OUT 5 ETH @ 200 (G), RESTRUCTURE_IN 1000 SOL @ 1 (G)]`. -/
theorem C2_cost_transfer_conservation_witness :
    ((group_in_rows (apply_cost_basis_transfers [outRow, inRow]) "G").map
        (fun r => fillna0 r.Cost_Basis_Transferred)).sum =
      group_total_cost_basis [outRow, inRow] "G" :=
  C2_cost_transfer_conservation [outRow, inRow] "G" (by decide) (by decide)

/-- Claim C3: `apply_restructuring_rules` partitions restructuring legs by
mode: in HOLDINGS mode every RESTRUCTURE_OUT row is excluded with value and
P&L zeroed while every RESTRUCTURE_IN row is included; in TOTALS mode every
restructuring row of either kind is excluded with value and P&L zeroed. -/
theorem C3_view_partition (df : List Row) (r : Row) :
    (r ∈ apply_restructuring_rules df "holdings" →
      (r.Transaction_Type = "RESTRUCTURE_OUT" →
        r.Include_In_Portfolio = false ∧ r.Current_Value = 0 ∧ r.Profit_Loss = 0) ∧
      (r.Transaction_Type = "RESTRUCTURE_IN" → r.Include_In_Portfolio = true)) ∧
    (r ∈ apply_restructuring_rules df "totals" →
      r.Transaction_Type = "RESTRUCTURE_OUT" ∨ r.Transaction_Type = "RESTRUCTURE_IN" →
      r.Include_In_Portfolio = false ∧ r.Current_Value = 0 ∧ r.Profit_Loss = 0) := by
  constructor
  · intro hmem
    obtain ⟨b, hb, heq⟩ := mem_apply_restructuring_rules df "holdings" r hmem
    subst heq
    have hpres := cost_basis_transfer_row_preserves
      (df.map (restructuring_mask_row "holdings")) (restructuring_mask_row "holdings" b)
    have htype0 := restructuring_mask_row_type "holdings" b
    constructor
    · intro hOut
      have hbT : b.Transaction_Type = "RESTRUCTURE_OUT" := by
        rw [← htype0, ← hpres.2.1]
        exact hOut
      have hp2 := cost_basis_transfer_row_preserves
        (df.map (restructuring_mask_row "holdings")) (zeroOut b)
      rw [mask_holdings_out b hbT]
      exact ⟨by rw [hp2.2.2.1]; rfl, by rw [hp2.2.2.2.1]; rfl, by rw [hp2.2.2.2.2.1]; rfl⟩
    · intro hIn
      have hbT : b.Transaction_Type = "RESTRUCTURE_IN" := by
        rw [← htype0, ← hpres.2.1]
        exact hIn
      have hp2 := cost_basis_transfer_row_preserves
        (df.map (restructuring_mask_row "holdings")) { b with Include_In_Portfolio := true }
      rw [mask_holdings_in b hbT]
      rw [hp2.2.2.1]
  · intro hmem hKind
    obtain ⟨b, hb, heq⟩ := mem_apply_restructuring_rules df "totals" r hmem
    subst heq
    have hpres := cost_basis_transfer_row_preserves
      (df.map (restructuring_mask_row "totals")) (restructuring_mask_row "totals" b)
    have htype0 := restructuring_mask_row_type "totals" b
    have hbT : b.Transaction_Type = "RESTRUCTURE_OUT" ∨
        b.Transaction_Type = "RESTRUCTURE_IN" := by
      rw [← htype0, ← hpres.2.1]
      exact hKind
    have hp2 := cost_basis_transfer_row_preserves
      (df.map (restructuring_mask_row "totals")) (zeroOut b)
    rw [mask_totals_restructure b hbT]
    exact ⟨by rw [hp2.2.2.1]; rfl, by rw [hp2.2.2.2.1]; rfl, by rw [hp2.2.2.2.2.1]; rfl⟩

/-- Witness for C3: the zeroed OUT leg of the scenario-C group, in both
views. -/
theorem C3_view_partition_witness :
    ((zeroOut outRow).Include_In_Portfolio = false ∧ (zeroOut outRow).Current_Value = 0 ∧
      (zeroOut outRow).Profit_Loss = 0) ∧
    ((zeroOut outRow).Include_In_Portfolio = false ∧ (zeroOut outRow).Current_Value = 0 ∧
      (zeroOut outRow).Profit_Loss = 0) :=
  ⟨((C3_view_partition [outRow, inRow] (zeroOut outRow)).1 (by decide)).1 (by decide),
   (C3_view_partition [outRow, inRow] (zeroOut outRow)).2 (by decide) (by decide)⟩

/-- Counterexample for C6: an EXCLUDE row whose inclusion flag is `true` on
input passes through `apply_restructuring_rules` unchanged in every mode, so
it does NOT end up with `Include_In_Portfolio = False` after the rules. -/
theorem C6_exclude_not_forced_off :
    exRow.Transaction_Type = "EXCLUDE" ∧
    exRow.Include_In_Portfolio = true ∧
    apply_restructuring_rules [exRow] "holdings" = [exRow] ∧
    apply_restructuring_rules [exRow] "totals" = [exRow] ∧
    apply_restructuring_rules [exRow] "original" = [exRow] := by
  decide

/-- Claim C6 (amended): `apply_restructuring_rules` never touches EXCLUDE
rows — it passes them through unchanged in every mode rather than forcing
their inclusion flag off; an EXCLUDE row is excluded from value and P&L
exactly when its `Include_In_Portfolio` flag is already `False` (as
`add_transaction` sets it at creation), in which case it passes neither the
TOTALS nor the HOLDINGS summary filter. -/
theorem C6_exclude_passthrough (df : List Row) (mode : String) :
    ((apply_restructuring_rules df mode).filter
        (fun x => x.Transaction_Type = "EXCLUDE") =
      df.filter (fun x => x.Transaction_Type = "EXCLUDE")) ∧
    (∀ r ∈ df, r.Transaction_Type = "EXCLUDE" → r.Include_In_Portfolio = false →
      r ∉ included_totals df ∧ r ∉ included_holdings df) := by
  refine ⟨filter_type_passthrough df mode "EXCLUDE" (by decide) (by decide), ?_⟩
  intro r _ _ hoff
  constructor
  · intro hmem
    unfold included_totals at hmem
    rw [List.mem_filter] at hmem
    rw [hoff] at hmem
    simp at hmem
  · intro hmem
    unfold included_holdings at hmem
    rw [List.mem_filter] at hmem
    rw [hoff] at hmem
    simp at hmem

/-- Witness for C6 (amended) on a one-row ledger holding an EXCLUDE row whose
flag is off. -/
theorem C6_exclude_passthrough_witness :
    ((apply_restructuring_rules [exRowOff] "holdings").filter
        (fun x => x.Transaction_Type = "EXCLUDE") =
      [exRowOff].filter (fun x => x.Transaction_Type = "EXCLUDE")) ∧
    (exRowOff ∉ included_totals [exRowOff] ∧ exRowOff ∉ included_holdings [exRowOff]) :=
  ⟨(C6_exclude_passthrough [exRowOff] "holdings").1,
   (C6_exclude_passthrough [exRowOff] "holdings").2 exRowOff (by decide) (by decide)
     (by decide)⟩

/-- Counterexample for C7: a TRANSFER leg with nonzero quantity produces no
position at all in `calculate_net_holdings`, and appending it to a BUY ledger
leaves the computed positions unchanged — its quantity does not affect net
quantity. -/
theorem C7_transfer_has_no_net_effect :
    transferRow.Transaction_Type = "TRANSFER" ∧
    fillna0 transferRow.Quantity = 5 ∧
    calculate_net_holdings [transferRow] = [] ∧
    calculate_net_holdings [buyRow, transferRow] = calculate_net_holdings [buyRow] := by
  decide

/-- Claim C7 (amended): TRANSFER legs are skipped by the net-holdings replay —
a TRANSFER row yields no replay leg, so it never contributes to any asset's
net quantity or cost basis, and a ledger of only TRANSFER rows yields no
positions; under the TOTALS view the rules pass TRANSFER rows through
unchanged, and an included TRANSFER row does contribute to the grand totals:
appending it to a ledger adds its stored `Current_Value` to the current-value
total and `abs(quantity) * (Adjusted_Purchase_Price or Purchase_Price or 0)`
to the cost-basis total. -/
theorem C7_transfer_skipped :
    (∀ r : Row, r.Transaction_Type = "TRANSFER" → mk_leg r = none) ∧
    (∀ df : List Row, (∀ x ∈ df, x.Transaction_Type = "TRANSFER") →
      calculate_net_holdings df = []) ∧
    (∀ df : List Row,
      (apply_restructuring_rules df "totals").filter
          (fun x => x.Transaction_Type = "TRANSFER") =
        df.filter (fun x => x.Transaction_Type = "TRANSFER")) ∧
    (∀ (df : List Row) (t : Row), t.Transaction_Type = "TRANSFER" →
      t.Include_In_Portfolio = true →
      included_totals (df ++ [t]) = included_totals df ++ [t] ∧
      ((included_totals (df ++ [t])).map (fun r => r.Current_Value)).sum =
        ((included_totals df).map (fun r => r.Current_Value)).sum + t.Current_Value ∧
      ((included_totals (df ++ [t])).map totals_cost_basis_row).sum =
        ((included_totals df).map totals_cost_basis_row).sum +
          totals_cost_basis_row t) := by
  refine ⟨?_, ?_, ?_, ?_⟩
  · intro r h
    unfold mk_leg
    simp [h]
  · intro df h
    unfold calculate_net_holdings
    rw [List.filterMap_eq_nil_iff]
    intro sym _
    exact net_holding_none_of_all_transfer df h sym
  · intro df
    exact filter_type_passthrough df "totals" "TRANSFER" (by decide) (by decide)
  · intro df t hT hinc
    have happ : included_totals (df ++ [t]) = included_totals df ++ [t] := by
      unfold included_totals
      rw [apply_rules_append_other df t "totals" (by rw [hT]; decide) (by rw [hT]; decide),
        List.filter_append]
      simp [hinc]
    refine ⟨happ, ?_, ?_⟩
    · rw [happ, List.map_append, List.sum_append]
      simp
    · rw [happ, List.map_append, List.sum_append]
      simp

/-- Witness for C7 (amended) on the concrete TRANSFER row. -/
theorem C7_transfer_skipped_witness :
    mk_leg transferRow = none ∧
    calculate_net_holdings [transferRow] = [] ∧
    (apply_restructuring_rules [transferRow] "totals").filter
        (fun x => x.Transaction_Type = "TRANSFER") =
      [transferRow].filter (fun x => x.Transaction_Type = "TRANSFER") ∧
    ((included_totals ([buyRow] ++ [transferRow])).map totals_cost_basis_row).sum =
      ((included_totals [buyRow]).map totals_cost_basis_row).sum +
        totals_cost_basis_row transferRow :=
  ⟨C7_transfer_skipped.1 transferRow (by decide),
   C7_transfer_skipped.2.1 [transferRow] (by decide),
   C7_transfer_skipped.2.2.1 [transferRow],
   (C7_transfer_skipped.2.2.2 [buyRow] transferRow (by decide) (by decide)).2.2⟩

/-- Counterexample for C8: a stored record with negative quantity (-3) and
missing restructuring fields is backfilled with kind SELL, not BUY. -/
theorem C8_backfill_negative_is_sell :
    (backfill_restructuring_columns legacySellRecord).Transaction_Type = "SELL" ∧
    ¬(backfill_restructuring_columns legacySellRecord).Transaction_Type = "BUY" := by
  decide

/-- Claim C8 (amended): for records whose restructuring fields are missing,
the backfill sets kind from the sign of the stored quantity — SELL when the
quantity is negative, BUY otherwise (including a missing quantity) — along
with `included = true`, `adjustedCost = originalCost = purchase price`,
`transferredCost = 0` and a null group. -/
theorem C8_backfill_defaults (r : LegacyRow) (q : ℚ) :
    (r.Quantity = some q →
      ((q < 0 → (backfill_restructuring_columns r).Transaction_Type = "SELL") ∧
       (0 ≤ q → (backfill_restructuring_columns r).Transaction_Type = "BUY"))) ∧
    (r.Quantity = none → (backfill_restructuring_columns r).Transaction_Type = "BUY") ∧
    (backfill_restructuring_columns r).Include_In_Portfolio = true ∧
    (backfill_restructuring_columns r).Adjusted_Purchase_Price = r.Purchase_Price ∧
    (backfill_restructuring_columns r).Original_Purchase_Price = r.Purchase_Price ∧
    (backfill_restructuring_columns r).Cost_Basis_Transferred = some 0 ∧
    (backfill_restructuring_columns r).Restructure_Group = none := by
  refine ⟨?_, ?_, rfl, rfl, rfl, rfl, rfl⟩
  · intro hq
    unfold backfill_restructuring_columns
    rw [hq]
    constructor
    · intro hneg
      simp [hneg]
    · intro hpos
      simp [not_lt.mpr hpos]
  · intro hq
    unfold backfill_restructuring_columns
    rw [hq]

/-- Witness for C8 (amended) on the two concrete legacy records. -/
theorem C8_backfill_defaults_witness :
    (backfill_restructuring_columns legacySellRecord).Transaction_Type = "SELL" ∧
    (backfill_restructuring_columns legacyBuyRecord).Transaction_Type = "BUY" ∧
    (backfill_restructuring_columns legacySellRecord).Include_In_Portfolio = true :=
  ⟨((C8_backfill_defaults legacySellRecord (-3)).1 (by decide)).1 (by decide),
   ((C8_backfill_defaults legacyBuyRecord 2).1 (by decide)).2 (by decide),
   (C8_backfill_defaults legacySellRecord 0).2.2.1⟩

/-- Claim C4: on the ledger `[BUY 10 BTC @ 100, SELL 4 BTC @ 120]` with
current price 150, the replay ends at net quantity 6 with total cost basis
600 (weighted-average cost still 100), and the emitted position has current
value 900 and unrealized P&L 300. -/
theorem C4_scenario_b :
    (replay_legs [buyRow, sellRow]).foldl replay_step (0, 0) = (6, 600) ∧
    (calculate_net_holdings [buyRow, sellRow]).map
        (fun p => (p.Effective_Quantity, p.Purchase_Price, p.Current_Value, p.Profit_Loss)) =
      [(6, 100, 900, 300)] := by
  decide

/-- Claim C5: along the per-symbol replay of `calculate_net_holdings` (legs
taken in the engine's sorted order from any row sequence), the running net
quantity and running total cost basis are non-negative at every intermediate
state and at the end. -/
theorem C5_replay_nonneg (rows : List Row) (s : ℚ × ℚ)
    (hs : s ∈ (replay_legs rows).scanl replay_step (0, 0)) :
    0 ≤ s.1 ∧ 0 ≤ s.2 := by
  have hlegs : ∀ l ∈ replay_legs rows, l.isBuy = true → 0 ≤ l.qty := by
    intro l hl hb
    unfold replay_legs at hl
    obtain ⟨r, _, hmk⟩ := List.mem_filterMap.mp hl
    simp only [mk_leg] at hmk
    split at hmk
    · cases Option.some.inj hmk
      exact abs_nonneg _
    · split at hmk
      · cases Option.some.inj hmk
        simp at hb
      · exact absurd hmk (by simp)
  exact replay_scanl_nonneg (replay_legs rows) hlegs (0, 0) le_rfl le_rfl s hs

/-- Witness for C5 at the state reached after the ledger `[buyRow, sellRow]`. -/
theorem C5_replay_nonneg_witness :
    0 ≤ (((6 : ℚ), (600 : ℚ))).1 ∧ 0 ≤ (((6 : ℚ), (600 : ℚ))).2 :=
  C5_replay_nonneg [buyRow, sellRow] (6, 600) (by decide)

/-- Claim C9 (implicit): the net-holdings replay never reads
`Adjusted_Purchase_Price` — rewriting that column arbitrarily leaves the
computed positions unchanged; each leg is priced from `Purchase_Price`,
falling back to `Original_Purchase_Price` when `Purchase_Price` is null or
zero; consequently a RESTRUCTURE_IN leg whose adjusted unit price (5) differs
from its original purchase price (1) is replayed at cost basis 1000 (the
original price times quantity), not the 5000 its adjusted price would give. -/
theorem C9_replay_ignores_adjusted_price :
    (∀ (df : List Row) (f : Row → Option ℚ),
      calculate_net_holdings
          (df.map (fun r => { r with Adjusted_Purchase_Price := f r })) =
        calculate_net_holdings df) ∧
    (∀ r : Row, r.Purchase_Price = none ∨ r.Purchase_Price = some 0 →
      leg_price r = orQ r.Original_Purchase_Price 0) ∧
    (∀ (r : Row) (q : ℚ), r.Purchase_Price = some q → q ≠ 0 → leg_price r = q) ∧
    ((replay_legs [adjustedInRow]).foldl replay_step (0, 0)).2 = 1000 ∧
    adjustedInRow.Adjusted_Purchase_Price = some 5 ∧
    fillna0 adjustedInRow.Quantity * orQ adjustedInRow.Adjusted_Purchase_Price 0 = 5000 := by
  refine ⟨?_, ?_, ?_, by decide, by decide, by decide⟩
  · intro df f
    exact calculate_net_holdings_map
      (fun r => { r with Adjusted_Purchase_Price := f r }) (fun r => rfl) df
  · intro r h
    unfold leg_price orQ
    rcases h with h | h <;> simp [h]
  · intro r q hq hne
    unfold leg_price orQ
    rw [hq]
    simp [hne]

/-- Witness for C9 at concrete rows. -/
theorem C9_replay_ignores_adjusted_price_witness :
    calculate_net_holdings [{ buyRow with Adjusted_Purchase_Price := none }] =
        calculate_net_holdings [buyRow] ∧
    leg_price { baseRow with Purchase_Price := some 0,
                             Original_Purchase_Price := some 7 } =
      orQ (some 7) 0 ∧
    leg_price { baseRow with Purchase_Price := some 3 } = 3 :=
  ⟨C9_replay_ignores_adjusted_price.1 [buyRow] (fun _ => none),
   C9_replay_ignores_adjusted_price.2.1 _ (Or.inr rfl),
   C9_replay_ignores_adjusted_price.2.2.1 _ 3 rfl (by norm_num)⟩

/-- Claim C10 (implicit): `calculate_net_holdings` is independent of the
`Include_In_Portfolio` column — two frames that agree on every other column
yield the same positions, so rows flagged as excluded still contribute their
full quantity and cost to the replay. -/
theorem C10_replay_ignores_include_flag (df₁ df₂ : List Row)
    (h : df₁.map erase_include = df₂.map erase_include) :
    calculate_net_holdings df₁ = calculate_net_holdings df₂ := by
  have e : ∀ df : List Row,
      calculate_net_holdings (df.map erase_include) = calculate_net_holdings df :=
    fun df => calculate_net_holdings_map erase_include (fun r => rfl) df
  rw [← e df₁, h, e df₂]

/-- Witness for C10: turning off `buyRow`'s inclusion flag changes nothing. -/
theorem C10_replay_ignores_include_flag_witness :
    calculate_net_holdings [buyRow] =
      calculate_net_holdings [{ buyRow with Include_In_Portfolio := false }] :=
  C10_replay_ignores_include_flag _ _ (by decide)

end CryptoDashboard
